import Mathlib

/-!
Verification of the `dp800` protocol client library and the `dp832` TUI
control loop.  The definitions below are shallow embeddings of the Rust
sources (`dp800/src/lib.rs` and `dp832/src/main.rs`): strings stay strings,
`f32` values are modelled by their exact decimal content, fallible code
returns `Option`, and the stateful control loop becomes explicit state
passing over a scripted client.
-/

set_option autoImplicit false

/-- Rust `str::split(',')`: split a character list on a separator character.
`split` on an empty string yields one empty field, exactly as in Rust. -/
def splitChar (sep : Char) : List Char → List (List Char)
  | [] => [[]]
  | c :: t =>
    let r := splitChar sep t
    if c = sep then [] :: r
    else
      match r with
      | h :: t2 => (c :: h) :: t2
      | [] => [[c]]

/-- The comma-separated fields of a response line, as in `s.split(',').collect()`. -/
def fields (s : String) : List String :=
  (splitChar ',' s.data).map String.mk

/-- Value of a list of decimal digit characters, most significant first. -/
def digitsToNat (l : List Char) : Nat :=
  l.foldl (fun a c => a * 10 + (c.toNat - '0'.toNat)) 0

/-- Strip an optional leading sign, returning whether it was `'-'`. -/
def stripSign : List Char → Bool × List Char
  | '-' :: t => (true, t)
  | '+' :: t => (false, t)
  | l => (false, l)

/-- Model of an `f32` value as produced by Rust's `FromStr for f32`:
either a finite decimal `num * 10 ^ exp`, an infinity, or NaN.  The exact
decimal content stands in for the nearest binary float. -/
inductive FVal where
  | finite (num : Int) (exp : Int)
  | inf (neg : Bool)
  | nan
deriving DecidableEq, Repr

/-- Rust `s.parse::<f32>()`: grammar `Sign? ('inf' | 'infinity' | 'nan' | Number)`
with `Number ::= (Digit+ | Digit+ '.' Digit* | Digit* '.' Digit+) Exp?` and
`Exp ::= ('e' | 'E') Sign? Digit+`, the special words case-insensitive. -/
def parse_f32 (s : String) : Option FVal :=
  let p := stripSign s.data
  let neg := p.1
  let l := p.2
  let low := l.map Char.toLower
  if low = ['i', 'n', 'f'] ∨ low = ['i', 'n', 'f', 'i', 'n', 'i', 't', 'y'] then
    some (.inf neg)
  else if low = ['n', 'a', 'n'] then
    some .nan
  else
    let ds1 := l.takeWhile Char.isDigit
    let r1 := l.dropWhile Char.isDigit
    let q :=
      match r1 with
      | '.' :: t => (t.takeWhile Char.isDigit, t.dropWhile Char.isDigit)
      | _ => (([] : List Char), r1)
    let ds2 := q.1
    let r2 := q.2
    if ds1 = [] ∧ ds2 = [] then none
    else
      let mant : Nat := digitsToNat (ds1 ++ ds2)
      let num : Int := if neg then -(mant : Int) else (mant : Int)
      match r2 with
      | [] => some (.finite num (-(ds2.length : Int)))
      | e :: t =>
        if e = 'e' ∨ e = 'E' then
          let ep := stripSign t
          let eneg := ep.1
          let t2 := ep.2
          let eds := t2.takeWhile Char.isDigit
          let erest := t2.dropWhile Char.isDigit
          if eds ≠ [] ∧ erest = [] then
            let ev : Int := if eneg then -(digitsToNat eds : Int) else (digitsToNat eds : Int)
            some (.finite num (ev - (ds2.length : Int)))
          else none
        else none

/-- Struct `Measurement` from `dp800/src/lib.rs`: voltage, current and power parsed
from one comma-separated response line. -/
structure Measurement where
  voltage : FVal
  current : FVal
  power : FVal
deriving DecidableEq, Repr

/-- Rust `impl FromStr for Measurement`: split on commas, take fields 0, 1 and 2
(each required to be present and numeric), in that order. -/
def Measurement.from_str (s : String) : Option Measurement := do
  let split := fields s
  let voltage ← parse_f32 (← split[0]?)
  let current ← parse_f32 (← split[1]?)
  let power ← parse_f32 (← split[2]?)
  pure ⟨voltage, current, power⟩

/-- Struct `Identify` from `dp800/src/lib.rs`: the four identification strings. -/
structure Identify where
  manufacturer : String
  model : String
  sn : String
  version : String
deriving DecidableEq, Repr

/-- Rust `impl FromStr for Identify`: split on commas, take fields 0..3 as strings. -/
def Identify.from_str (s : String) : Option Identify := do
  let split := fields s
  let manufacturer ← split[0]?
  let model ← split[1]?
  let sn ← split[2]?
  let version ← split[3]?
  pure ⟨manufacturer, model, sn, version⟩

/-- Model of the socket seen by `Dp800::q`: the characters written so far and
the characters still available to read from the device. -/
structure Wire where
  written : List Char
  input : List Char
deriving DecidableEq, Repr

/-- Rust `BufRead::read_line`: take characters up to and including the first
newline (or until end of input), returning the line and the rest. -/
def read_line : List Char → List Char × List Char
  | [] => ([], [])
  | c :: t =>
    if c = '\n' then ([c], t)
    else
      let r := read_line t
      (c :: r.1, r.2)

/-- Method `Dp800::q`: write the query, read one line, `buf.pop()` the last
character, return the buffer together with the updated wire state. -/
def q (query : String) (w : Wire) : String × Wire :=
  let r := read_line w.input
  let buf := r.1.dropLast
  (⟨buf⟩, ⟨w.written ++ query.data, r.2⟩)

/-- Decimal digit character for `n < 10`. -/
def digitChar (n : Nat) : Char := Char.ofNat ('0'.toNat + n)

/-- Decimal rendering of a natural number (Rust integer `Display`),
with fuel for the division recursion. -/
def natDigitsAux : Nat → Nat → List Char
  | 0, _ => []
  | fuel + 1, n => if n < 10 then [digitChar n] else natDigitsAux fuel (n / 10) ++ [digitChar (n % 10)]

/-- Decimal rendering of a natural number. -/
def natRepr (n : Nat) : String := ⟨natDigitsAux (n + 1) n⟩

/-- Divide `n` by `d > 0`, rounding to the nearest integer with ties to
even — the rounding used by Rust's fixed-precision float formatting. -/
def divHalfEven (n d : Int) : Int :=
  let quot := Int.fdiv n d
  let r := n - quot * d
  if 2 * r < d then quot
  else if d < 2 * r then quot + 1
  else if quot % 2 = 0 then quot else quot + 1

/-- The value `num * 10 ^ exp * 1000`, rounded to the nearest integer with
ties to even.  `(num, exp)` is the exact decimal content of a finite `f32`
(every finite binary float is a finite decimal). -/
def thousandths (num exp : Int) : Int :=
  if 0 ≤ exp + 3 then num * 10 ^ (exp + 3).toNat
  else divHalfEven num (10 ^ (-(exp + 3)).toNat)

/-- Fractional part of a `{:.3}` rendering: three digit characters. -/
def natPad3 (n : Nat) : String :=
  ⟨[digitChar (n / 100 % 10), digitChar (n / 10 % 10), digitChar (n % 10)]⟩

/-- Rust `{v:.3}` formatting of an `f32` value: for a finite value
`num * 10 ^ exp`, sign, integer part, `'.'`, and exactly three fractional
digits; for non-finite values Rust ignores the precision and prints
`NaN`, `inf` or `-inf`. -/
def fmt3 (v : FVal) : String :=
  match v with
  | .nan => "NaN"
  | .inf neg => (if neg then "-" else "") ++ "inf"
  | .finite num exp =>
    let n : Int := thousandths num exp
    let a : Nat := n.natAbs
    (if num < 0 then "-" else "") ++ natRepr (a / 1000) ++ "." ++ natPad3 (a % 1000)

/-- Method `Dp800::set_voltage`: the command string written to the wire. -/
def set_voltage (ch : Nat) (volts : FVal) : String :=
  ":SOUR" ++ natRepr ch ++ ":VOLT " ++ fmt3 volts ++ "\n"

/-- Method `Dp800::set_current`: the command string written to the wire. -/
def set_current (ch : Nat) (amps : FVal) : String :=
  ":SOUR" ++ natRepr ch ++ ":CURR " ++ fmt3 amps ++ "\n"

/-- Method `Dp800::set_ovp`: the command string written to the wire. -/
def set_ovp (ch : Nat) (volts : FVal) : String :=
  ":OUTP:OVP:VAL CH" ++ natRepr ch ++ "," ++ fmt3 volts ++ "\n"

/-- Method `Dp800::set_ocp`: the command string written to the wire. -/
def set_ocp (ch : Nat) (amps : FVal) : String :=
  ":OUTP:OCP:VAL CH" ++ natRepr ch ++ "," ++ fmt3 amps ++ "\n"

/-- Constant `NUM_CH` from `dp832/src/main.rs`. -/
def NUM_CH : Nat := 3

/-- Constant `NUM_RETRY` from `run_app` in `dp832/src/main.rs`. -/
def NUM_RETRY : Nat := 3

/-- Enum `Vsel` from `dp832/src/main.rs`: the 7-valued vertical field cursor. -/
inductive Vsel where
  | Measure
  | SetVolt
  | SetAmp
  | Ovp
  | Ocp
  | OvpOn
  | OcpOn
deriving DecidableEq, Repr, Fintype

/-- Method `Vsel::next`. -/
def Vsel.next : Vsel → Vsel
  | .Measure => .SetVolt
  | .SetVolt => .SetAmp
  | .SetAmp => .Ovp
  | .Ovp => .Ocp
  | .Ocp => .OvpOn
  | .OvpOn => .OcpOn
  | .OcpOn => .Measure

/-- Method `Vsel::prev`. -/
def Vsel.prev : Vsel → Vsel
  | .Measure => .OcpOn
  | .SetVolt => .Measure
  | .SetAmp => .SetVolt
  | .Ovp => .SetAmp
  | .Ocp => .Ovp
  | .OvpOn => .Ocp
  | .OcpOn => .OvpOn

/-- Struct `Data` from `dp832/src/main.rs`: one channel's sampled state. -/
structure Data where
  output_state : Bool
  meas_voltage : FVal
  meas_current : FVal
  meas_power : FVal
  sp_voltage : FVal
  sp_current : FVal
  limit_voltage : FVal
  limit_current : FVal
  ovp_on : Bool
  ocp_on : Bool
deriving DecidableEq, Repr

/-- Value `Data::default()`: Rust zero/false defaults. -/
def Data.zero : Data :=
  ⟨false, .finite 0 0, .finite 0 0, .finite 0 0, .finite 0 0, .finite 0 0,
    .finite 0 0, .finite 0 0, false, false⟩

/-- A typed response from the mocked device. -/
inductive Resp where
  | rMeas (m : Measurement)
  | rBool (b : Bool)
  | rNum (v : FVal)
deriving DecidableEq, Repr

/-- One scripted behaviour of the device for one query: answer, fail fast
with an I/O or parse error, or never answer (so the attempt's outer
`tokio::time::timeout` fires). -/
inductive QOutcome where
  | resp (r : Resp)
  | err
  | hang
deriving DecidableEq, Repr

/-- A scripted client: the outcomes of successive queries, in order. -/
abbrev Client := List QOutcome

/-- Result of running a fallible, cancellable piece of the sampling pass:
a value, a fast error (propagated by `?`), or a hang that the outer
per-attempt timeout cancels. -/
inductive Out (α : Type) where
  | ok (a : α)
  | fail
  | hang
deriving DecidableEq, Repr

instance : Monad Out where
  pure := .ok
  bind x f :=
    match x with
    | .ok a => f a
    | .fail => .fail
    | .hang => .hang

/-- Pop the next scripted response.  An exhausted script or a wrong-typed
answer behaves like a read/parse failure. -/
def popResp (cl : Client) : Out (Resp × Client) :=
  match cl with
  | [] => .fail
  | .resp r :: t => .ok (r, t)
  | .err :: _ => .fail
  | .hang :: _ => .hang

/-- A `measure` query against the scripted client. -/
def popMeas (cl : Client) : Out (Measurement × Client) := do
  let rc ← popResp cl
  match rc.1 with
  | .rMeas m => pure (m, rc.2)
  | _ => .fail

/-- A boolean (`ON`/`OFF`) query against the scripted client. -/
def popBool (cl : Client) : Out (Bool × Client) := do
  let rc ← popResp cl
  match rc.1 with
  | .rBool b => pure (b, rc.2)
  | _ => .fail

/-- A numeric query against the scripted client. -/
def popNum (cl : Client) : Out (FVal × Client) := do
  let rc ← popResp cl
  match rc.1 with
  | .rNum v => pure (v, rc.2)
  | _ => .fail

/-- The eight sequential queries `App::on_tick` issues for one channel —
`measure`, `output_state`, `voltage`, `current`, `ovp`, `ocp`, `ovp_on`,
`ocp_on` — assembled into a `Data` only if all of them succeed. -/
def sampleChannel (cl : Client) : Out (Data × Client) := do
  let (meas, cl) ← popMeas cl
  let (os, cl) ← popBool cl
  let (spv, cl) ← popNum cl
  let (spc, cl) ← popNum cl
  let (lv, cl) ← popNum cl
  let (lc, cl) ← popNum cl
  let (ovpOn, cl) ← popBool cl
  let (ocpOn, cl) ← popBool cl
  pure (⟨os, meas.voltage, meas.current, meas.power, spv, spc, lv, lc, ovpOn, ocpOn⟩, cl)

/-- Method `App::on_tick` over the snapshot list: each channel's slot is assigned
only after its whole `sampleChannel` succeeds; an error or hang aborts the
pass, leaving the current and the following slots untouched. -/
def on_tickAux : Client → List Data → Out Client × List Data
  | cl, [] => (.ok cl, [])
  | cl, d :: rest =>
    match sampleChannel cl with
    | .ok (d2, cl2) =>
      let r := on_tickAux cl2 rest
      (r.1, d2 :: r.2)
    | .fail => (.fail, d :: rest)
    | .hang => (.hang, d :: rest)

/-- Method `App::on_tick`: result of the whole sampling pass plus the snapshot. -/
def on_tick (cl : Client) (snap : List Data) : Out Unit × List Data :=
  let r := on_tickAux cl snap
  (match r.1 with
    | .ok _ => .ok ()
    | .fail => .fail
    | .hang => .hang, r.2)

/-- How the retry block in `run_app` ends: all loop iterations completed, a
fatal timeout on the last attempt, or an inner `on_tick` error propagated
by `?`. -/
inductive SErr where
  | timeoutFatal
  | inner
deriving DecidableEq, Repr

/-- Observable outcome of the retry block: result, final snapshot, and the
number of `on_tick` executions performed. -/
structure SamplerOut where
  res : Except SErr Unit
  snap : List Data
  ticks : Nat
deriving Repr

/-- The `for attempt in 1..=NUM_RETRY` retry loop of `run_app`, one scripted
client per attempt.  A hang (timeout) on the last attempt is fatal and on an
earlier attempt backs off and continues; an inner error propagates at once;
a successful attempt falls through to the next loop iteration (the source
has no `break`). -/
def samplerAux : List Client → Nat → List Data → SamplerOut
  | [], _, snap => ⟨.ok (), snap, 0⟩
  | cl :: rest, attempt, snap =>
    let r := on_tick cl snap
    match r.1 with
    | .hang =>
      if attempt = NUM_RETRY then ⟨.error .timeoutFatal, r.2, 1⟩
      else
        let o := samplerAux rest (attempt + 1) r.2
        ⟨o.res, o.snap, o.ticks + 1⟩
    | .fail => ⟨.error .inner, r.2, 1⟩
    | .ok _ =>
      let o := samplerAux rest (attempt + 1) r.2
      ⟨o.res, o.snap, o.ticks + 1⟩

/-- The whole retry block: exactly `NUM_RETRY` loop iterations, attempt `i`
answered by script `cᵢ`. -/
def sampler (c1 c2 c3 : Client) (snap : List Data) : SamplerOut :=
  samplerAux [c1, c2, c3] 1 snap

/-- The interactive state of `App` touched by key handling: channel cursor,
field cursor, the text-entry title (TextEntry mode iff nonempty), and the
text-entry buffer. -/
structure Ui where
  ch : Nat
  vsel : Vsel
  inputTitle : String
  input : String
deriving DecidableEq, Repr

/-- The key events `run_app` distinguishes. -/
inductive Key where
  | char (c : Char)
  | enter
  | backspace
  | esc
  | up
  | down
  | left
  | right
  | other
deriving DecidableEq, Repr

/-- A protocol call or delay issued by one key-handling step. -/
inductive Eff where
  | setCh (ch : Nat)
  | setOutputState (ch : Nat) (b : Bool)
  | setVoltage (ch : Nat) (v : FVal)
  | setCurrent (ch : Nat) (v : FVal)
  | setOvp (ch : Nat) (v : FVal)
  | setOcp (ch : Nat) (v : FVal)
  | setOvpOn (ch : Nat) (b : Bool)
  | setOcpOn (ch : Nat) (b : Bool)
  | sleepMs (ms : Nat)
deriving DecidableEq, Repr

/-- Result of handling one key event: quit (`return Ok(())`), a panic
(`unwrap` on a failed parse, or `unreachable!`), or the next state together
with the protocol calls issued. -/
inductive StepRes where
  | quit
  | panicked
  | ok (st : Ui) (effs : List Eff)
deriving DecidableEq, Repr

/-- Rust `String::pop`: drop the last character, if any. -/
def stringDropLast (s : String) : String := ⟨s.data.dropLast⟩

/-- Method `App::ch_data`: the current channel's slot, `self.data[(self.ch - 1)]`. -/
def chData (snap : List Data) (ch : Nat) : Data := snap.getD (ch - 1) Data.zero

/-- The TextEntry branch of `run_app`'s key handling (taken while
`input_title` is nonempty). -/
def editKey (st : Ui) (k : Key) : StepRes :=
  match k with
  | .char c =>
    if c = 'q' then .quit
    else if ('0' ≤ c ∧ c ≤ '9') ∨ c = '.' then
      if st.input.utf8ByteSize < 16 then .ok { st with input := st.input.push c } []
      else .ok st []
    else .ok st []
  | .enter =>
    match parse_f32 st.input with
    | none => .panicked
    | some v =>
      let st2 := { st with inputTitle := "", input := "" }
      match st.vsel with
      | .SetVolt => .ok st2 [.setVoltage st.ch v]
      | .SetAmp => .ok st2 [.setCurrent st.ch v]
      | .Ovp => .ok st2 [.setOvp st.ch v]
      | .Ocp => .ok st2 [.setOcp st.ch v]
      | _ => .panicked
  | .backspace => .ok { st with input := stringDropLast st.input } []
  | .esc => .ok { st with inputTitle := "", input := "" } []
  | _ => .ok st []

/-- Channel-next (`Right` / `'l'`): increment with wraparound past `NUM_CH`,
then `set_ch` and a 50 ms settle sleep. -/
def chanNextStep (st : Ui) : StepRes :=
  let c := st.ch + 1
  let c := if c > NUM_CH then 1 else c
  .ok { st with ch := c } [.setCh c, .sleepMs 50]

/-- Channel-prev (`Left` / `'h'`): decrement with wraparound below 1,
then `set_ch` and a 50 ms settle sleep. -/
def chanPrevStep (st : Ui) : StepRes :=
  let c := st.ch - 1
  let c := if c = 0 then NUM_CH else c
  .ok { st with ch := c } [.setCh c, .sleepMs 50]

/-- The Navigation branch of `run_app`'s key handling (taken while
`input_title` is empty). -/
def navKey (snap : List Data) (st : Ui) (k : Key) : StepRes :=
  match k with
  | .char c =>
    if c = 'q' then .quit
    else if c = 'l' then chanNextStep st
    else if c = 'h' then chanPrevStep st
    else if c = 'k' then .ok { st with vsel := st.vsel.prev } []
    else if c = 'j' then .ok { st with vsel := st.vsel.next } []
    else .ok st []
  | .right => chanNextStep st
  | .left => chanPrevStep st
  | .up => .ok { st with vsel := st.vsel.prev } []
  | .down => .ok { st with vsel := st.vsel.next } []
  | .enter =>
    match st.vsel with
    | .Measure => .ok st [.setOutputState st.ch (!(chData snap st.ch).output_state)]
    | .SetVolt => .ok { st with inputTitle := "Voltage Setpoint (V)" } []
    | .SetAmp => .ok { st with inputTitle := "Current Setpoint (A)" } []
    | .Ovp => .ok { st with inputTitle := "Over Voltage Protection (V)" } []
    | .Ocp => .ok { st with inputTitle := "Over Current Protection (A)" } []
    | .OvpOn => .ok st [.setOvpOn st.ch (!(chData snap st.ch).ovp_on)]
    | .OcpOn => .ok st [.setOcpOn st.ch (!(chData snap st.ch).ocp_on)]
  | _ => .ok st []

/-- One key-handling step of `run_app`: TextEntry branch iff `input_title`
is nonempty, Navigation branch otherwise. -/
def handleKey (snap : List Data) (st : Ui) (k : Key) : StepRes :=
  if st.inputTitle = "" then navKey snap st k else editKey st k

/-- A fully successful script for one channel of a sampling pass: the eight
answers to `measure`, `output_state`, `voltage`, `current`, `ovp`, `ocp`,
`ovp_on`, `ocp_on`, with values distinct from the `Data` defaults. -/
def okChan : Client :=
  [.resp (.rMeas ⟨.finite 5 0, .finite 1 0, .finite 5 0⟩), .resp (.rBool true),
   .resp (.rNum (.finite 5 0)), .resp (.rNum (.finite 1 0)), .resp (.rNum (.finite 33 (-1))),
   .resp (.rNum (.finite 32 (-1))), .resp (.rBool true), .resp (.rBool true)]

/-- A script answering every query of a whole three-channel pass. -/
def okPass : Client := okChan ++ okChan ++ okChan

/-- A script that answers all of channel 1 and then stops responding, so the
per-attempt timeout fires during channel 2. -/
def hangPass : Client := okChan ++ [.hang]

/-- The startup snapshot: `Default::default()` per channel. -/
def snap0 : List Data := [Data.zero, Data.zero, Data.zero]

example : fields "1.234,5.678,9.012" = ["1.234", "5.678", "9.012"] := by decide
example : parse_f32 "1.234" = some (.finite 1234 (-3)) := by decide
example : parse_f32 "" = none := by decide
example : parse_f32 "." = none := by decide
example : parse_f32 "1.2.3" = none := by decide
example : parse_f32 "12e5" = some (.finite 12 5) := by decide
example : parse_f32 "-1.25e-2" = some (.finite (-125) (-4)) := by decide
example : parse_f32 "inf" = some (.inf false) := by decide
example : Measurement.from_str "1.234,5.678,9.012" =
    some ⟨.finite 1234 (-3), .finite 5678 (-3), .finite 9012 (-3)⟩ := by decide
example : Measurement.from_str "1.234,5.678" = none := by decide
example : Measurement.from_str "1,2,3,4" =
    some ⟨.finite 1 0, .finite 2 0, .finite 3 0⟩ := by decide
example : Identify.from_str "RIGOL,DP832,S123,1.0" =
    some ⟨"RIGOL", "DP832", "S123", "1.0"⟩ := by decide
example : Identify.from_str "a,b,c" = none := by decide
example : q ":INST:NSEL?\n" ⟨[], "2\nrest".data⟩ = ("2", ⟨":INST:NSEL?\n".data, "rest".data⟩) := by
  decide
example : fmt3 (.finite 125 (-2)) = "1.250" := by decide
example : fmt3 (.finite (-4) (-1)) = "-0.400" := by decide
example : fmt3 (.finite 0 0) = "0.000" := by decide
example : fmt3 (.finite 12 0) = "12.000" := by decide
example : fmt3 (.finite 625 (-4)) = "0.062" := by decide
example : fmt3 (.finite 635 (-4)) = "0.064" := by decide
example : fmt3 (.finite (-1) (-4)) = "-0.000" := by decide
example : fmt3 .nan = "NaN" := by decide
example : fmt3 (.inf true) = "-inf" := by decide
example : set_voltage 2 (.finite 125 (-1)) = ":SOUR2:VOLT 12.500\n" := by decide
example : handleKey [] ⟨1, .SetVolt, "T", "12.5"⟩ (.char '3') =
    .ok ⟨1, .SetVolt, "T", "12.53"⟩ [] := by decide
example : handleKey [] ⟨1, .SetVolt, "T", ""⟩ .enter = .panicked := by decide
example : handleKey [] ⟨1, .SetVolt, "T", "."⟩ .enter = .panicked := by decide
example : handleKey [] ⟨1, .SetVolt, "T", "12.5"⟩ .enter =
    .ok ⟨1, .SetVolt, "", ""⟩ [.setVoltage 1 (.finite 125 (-1))] := by decide
example : handleKey [] ⟨1, .SetVolt, "T", "12.5"⟩ (.char 'q') = .quit := by decide
example : handleKey [] ⟨3, .Measure, "", ""⟩ .right =
    .ok ⟨1, .Measure, "", ""⟩ [.setCh 1, .sleepMs 50] := by decide
example : handleKey [] ⟨1, .Measure, "", ""⟩ .left =
    .ok ⟨3, .Measure, "", ""⟩ [.setCh 3, .sleepMs 50] := by decide
example : handleKey [] ⟨2, .SetVolt, "", ""⟩ .enter =
    .ok ⟨2, .SetVolt, "Voltage Setpoint (V)", ""⟩ [] := by decide
example : handleKey [Data.zero] ⟨1, .Measure, "", ""⟩ .enter =
    .ok ⟨1, .Measure, "", ""⟩ [.setOutputState 1 true] := by decide

/-- C7: applying `Vsel::next` exactly 7 times returns to the starting value,
and `Vsel::prev` is the exact inverse of `Vsel::next`, for every one of the
7 cursor states. -/
theorem vsel_next_order_seven_prev_inverse :
    ∀ s : Vsel, Vsel.next^[7] s = s ∧ (s.next).prev = s ∧ (s.prev).next = s := by
  decide

/-- C3 (amended): `Measurement::from_str` splits on commas and requires at
least 3 fields whose first three are numeric — fewer than 3 fields or a
non-numeric field among the first three yields a parse error, and with at
least 3 fields whose first three parse it succeeds with those values in
order, ignoring any extra fields. -/
theorem measurement_from_str_spec :
    (∀ s : String, (fields s).length < 3 → Measurement.from_str s = none) ∧
    (∀ (s f0 f1 f2 : String) (rest : List String),
      fields s = f0 :: f1 :: f2 :: rest →
      Measurement.from_str s =
        match parse_f32 f0, parse_f32 f1, parse_f32 f2 with
        | some v0, some v1, some v2 => some ⟨v0, v1, v2⟩
        | _, _, _ => none) := by
  constructor
  · intro s h
    match hf : fields s with
    | [] => simp [Measurement.from_str, hf]
    | [a] =>
      cases hp : parse_f32 a <;> simp [Measurement.from_str, hf, hp]
    | [a, b] =>
      cases hp : parse_f32 a <;> cases hq : parse_f32 b <;>
        simp [Measurement.from_str, hf, hp, hq]
    | a :: b :: c :: t =>
      rw [hf] at h
      simp at h
      omega
  · intro s f0 f1 f2 rest hf
    cases hp : parse_f32 f0 <;> cases hq : parse_f32 f1 <;> cases hr : parse_f32 f2 <;>
      simp [Measurement.from_str, hf, hp, hq, hr]

/-- C3 counterexample: an input with more than 3 comma-separated fields is
accepted by `Measurement::from_str` (the extra field is ignored), contrary
to the claim that it yields a parse error. -/
theorem measurement_from_str_extra_fields_accepted :
    (fields "1,2,3,4").length = 4 ∧
    Measurement.from_str "1,2,3,4" = some ⟨.finite 1 0, .finite 2 0, .finite 3 0⟩ := by
  decide

/-- C3 witness: the amended theorem applied to the spec's own test vectors. -/
theorem measurement_from_str_spec_witness :
    Measurement.from_str "1.234,5.678" = none ∧
    Measurement.from_str "1.234,5.678,9.012" =
      some ⟨.finite 1234 (-3), .finite 5678 (-3), .finite 9012 (-3)⟩ := by
  constructor
  · exact measurement_from_str_spec.1 "1.234,5.678" (by decide)
  · exact (measurement_from_str_spec.2 "1.234,5.678,9.012" "1.234" "5.678" "9.012" []
      (by decide)).trans (by decide)

/-- C10: `Identify::from_str` succeeds for every input with at least 4
comma-separated fields, returning the first four in order and ignoring any
extras, and fails exactly when there are fewer than 4 fields. -/
theorem identify_from_str_spec :
    (∀ s : String, (fields s).length < 4 → Identify.from_str s = none) ∧
    (∀ (s a b c d : String) (rest : List String),
      fields s = a :: b :: c :: d :: rest → Identify.from_str s = some ⟨a, b, c, d⟩) := by
  constructor
  · intro s h
    match hf : fields s with
    | [] => simp [Identify.from_str, hf]
    | [a] => simp [Identify.from_str, hf]
    | [a, b] => simp [Identify.from_str, hf]
    | [a, b, c] => simp [Identify.from_str, hf]
    | a :: b :: c :: d :: t =>
      rw [hf] at h
      simp at h
      omega
  · intro s a b c d rest hf
    simp [Identify.from_str, hf]

/-- C10 witness: the theorem applied to a 5-field and a 3-field input. -/
theorem identify_from_str_spec_witness :
    Identify.from_str "RIGOL,DP832,S123,1.0,extra" = some ⟨"RIGOL", "DP832", "S123", "1.0"⟩ ∧
    Identify.from_str "a,b,c" = none := by
  constructor
  · exact identify_from_str_spec.2 "RIGOL,DP832,S123,1.0,extra" "RIGOL" "DP832" "S123" "1.0"
      ["extra"] (by decide)
  · exact identify_from_str_spec.1 "a,b,c" (by decide)

/-- Reading from an input that starts with one newline-terminated line
consumes exactly that line. -/
theorem read_line_of_line (l rest : List Char) (h : '\n' ∉ l) :
    read_line (l ++ '\n' :: rest) = (l ++ ['\n'], rest) := by
  induction l with
  | nil => simp [read_line]
  | cons c t ih =>
    have hc : ¬c = '\n' := fun e => h (e ▸ List.mem_cons_self c t)
    have ht : '\n' ∉ t := fun e => h (List.mem_cons_of_mem c e)
    simp [read_line, hc, ih ht]

/-- C8: on a response consisting of one newline-terminated line `s ++ "\n"`,
`Dp800::q` writes the command, consumes exactly that line from the input,
and returns `s` with the trailing newline stripped. -/
theorem q_writes_reads_one_line_strips_newline (query s : String) (rest : List Char)
    (h : '\n' ∉ s.data) :
    q query ⟨[], s.data ++ '\n' :: rest⟩ = (s, ⟨query.data, rest⟩) := by
  unfold q
  rw [read_line_of_line s.data rest h]
  simp [List.dropLast_concat]

/-- C8 witness: a concrete one-line exchange. -/
theorem q_witness :
    q "*IDN?\n" ⟨[], "RIGOL".data ++ '\n' :: "more".data⟩ =
      ("RIGOL", ⟨"*IDN?\n".data, "more".data⟩) :=
  q_writes_reads_one_line_strips_newline "*IDN?\n" "RIGOL" "more".data (by decide)

/-- Digit characters are produced by `digitChar` below 10. -/
theorem digitChar_isDigit {k : Nat} (h : k < 10) : (digitChar k).isDigit = true := by
  interval_cases k <;> decide

/-- Every character of `natDigitsAux` output is a decimal digit. -/
theorem natDigitsAux_digits :
    ∀ (fuel n : Nat), ∀ c ∈ natDigitsAux fuel n, c.isDigit = true := by
  intro fuel
  induction fuel with
  | zero => intro n c hc; simp [natDigitsAux] at hc
  | succ f ih =>
    intro n c hc
    by_cases hn : n < 10
    · simp [natDigitsAux, hn] at hc
      exact hc ▸ digitChar_isDigit hn
    · simp [natDigitsAux, hn] at hc
      rcases hc with h1 | h1
      · exact ih _ _ h1
      · exact h1 ▸ digitChar_isDigit (Nat.mod_lt _ (by omega))

/-- Every character of `natRepr` output is a decimal digit. -/
theorem natRepr_digits (n : Nat) : ∀ c ∈ (natRepr n).data, c.isDigit = true :=
  natDigitsAux_digits (n + 1) n

/-- C9 (amended): every value-setting command renders its numeric argument
with `fmt3`, and for every finite value `fmt3` produces a string whose final
`'.'` is followed by exactly three decimal digits (the `{:.3}` wire
contract); non-finite values render as `NaN`/`inf`/`-inf` with no
fractional digits. -/
theorem set_commands_format_three_decimals :
    ∀ (ch : Nat) (v : FVal),
      set_voltage ch v = ":SOUR" ++ natRepr ch ++ ":VOLT " ++ fmt3 v ++ "\n" ∧
      set_current ch v = ":SOUR" ++ natRepr ch ++ ":CURR " ++ fmt3 v ++ "\n" ∧
      set_ovp ch v = ":OUTP:OVP:VAL CH" ++ natRepr ch ++ "," ++ fmt3 v ++ "\n" ∧
      set_ocp ch v = ":OUTP:OCP:VAL CH" ++ natRepr ch ++ "," ++ fmt3 v ++ "\n" ∧
      (∀ num exp : Int, v = .finite num exp →
        ∃ ipart fpart : String,
          fmt3 v = ipart ++ "." ++ fpart ∧
          fpart.length = 3 ∧
          (∀ c ∈ fpart.data, c.isDigit = true) ∧
          '.' ∉ ipart.data) ∧
      (fmt3 .nan = "NaN" ∧ fmt3 (.inf false) = "inf" ∧ fmt3 (.inf true) = "-" ++ "inf") := by
  intro ch v
  refine ⟨rfl, rfl, rfl, rfl, ?_, rfl, rfl, rfl⟩
  intro num exp hv
  subst hv
  refine ⟨(if num < 0 then "-" else "") ++ natRepr ((thousandths num exp).natAbs / 1000),
    natPad3 ((thousandths num exp).natAbs % 1000), rfl, rfl, ?_, ?_⟩
  · intro c hc
    simp [natPad3] at hc
    rcases hc with h1 | h1 | h1 <;>
      exact h1 ▸ digitChar_isDigit (Nat.mod_lt _ (by omega))
  · intro hmem
    rw [String.data_append] at hmem
    rcases List.mem_append.mp hmem with h1 | h1
    · by_cases hs : num < 0 <;> simp [hs] at h1
    · have := natRepr_digits ((thousandths num exp).natAbs / 1000) '.' h1
      simp [Char.isDigit] at this

/-- C9 counterexample: for the non-finite `f32` values NaN and ±infinity the
set commands do not write a 3-decimal rendering — `{:.3}` ignores the
precision and writes `NaN`, `inf` or `-inf`, with no fractional digits at
all. -/
theorem set_commands_nonfinite_no_decimals :
    set_voltage 1 FVal.nan = ":SOUR1:VOLT NaN\n" ∧
    set_current 1 (FVal.inf false) = ":SOUR1:CURR inf\n" ∧
    set_ocp 1 (FVal.inf true) = ":OUTP:OCP:VAL CH1,-inf\n" ∧
    '.' ∉ (fmt3 FVal.nan).data ∧ '.' ∉ (fmt3 (FVal.inf false)).data := by
  decide

/-- C9 witness: the amended theorem at a concrete channel and finite value. -/
theorem set_commands_format_three_decimals_witness :
    set_voltage 2 (.finite 125 (-1)) = ":SOUR2:VOLT 12.500\n" ∧
    (∃ ipart fpart : String,
      fmt3 (.finite 125 (-1)) = ipart ++ "." ++ fpart ∧
      fpart.length = 3 ∧
      (∀ c ∈ fpart.data, c.isDigit = true) ∧
      '.' ∉ ipart.data) := by
  constructor
  · exact (set_commands_format_three_decimals 2 (.finite 125 (-1))).1.trans (by decide)
  · exact (set_commands_format_three_decimals 2 (.finite 125 (-1))).2.2.2.2.1 125 (-1) rfl

/-- C5 (amended): in TextEntry mode, a typed character other than `'q'` is
appended to the buffer iff it is a digit or a decimal point and the buffer's
byte length is below 16; any other such character is ignored, leaving state
and mode unchanged and issuing no protocol call.  (`'q'` itself quits.) -/
theorem textentry_char_filter :
    ∀ (snap : List Data) (st : Ui) (c : Char), st.inputTitle ≠ "" → c ≠ 'q' →
      handleKey snap st (.char c) =
        if (('0' ≤ c ∧ c ≤ '9') ∨ c = '.') ∧ st.input.utf8ByteSize < 16 then
          .ok { st with input := st.input.push c } []
        else .ok st [] := by
  intro snap st c ht hc
  by_cases hd : ('0' ≤ c ∧ c ≤ '9') ∨ c = '.' <;>
    by_cases hl : st.input.utf8ByteSize < 16 <;>
      simp [handleKey, ht, editKey, hc, hd, hl]

/-- C5 counterexample: in TextEntry mode the character event `'q'` is not
ignored — it quits the application. -/
theorem textentry_q_quits :
    handleKey [] ⟨1, .SetVolt, "Voltage Setpoint (V)", "12"⟩ (.char 'q') = .quit ∧
    StepRes.quit ≠ .ok ⟨1, .SetVolt, "Voltage Setpoint (V)", "12"⟩ [] := by
  decide

/-- C5 witness: a digit is appended, an overlong buffer rejects a digit, and
a letter is ignored. -/
theorem textentry_char_filter_witness :
    handleKey [] ⟨1, .SetVolt, "T", "12."⟩ (.char '5') = .ok ⟨1, .SetVolt, "T", "12.5"⟩ [] ∧
    handleKey [] ⟨1, .SetVolt, "T", "0123456789012345"⟩ (.char '5') =
      .ok ⟨1, .SetVolt, "T", "0123456789012345"⟩ [] ∧
    handleKey [] ⟨1, .SetVolt, "T", "12."⟩ (.char 'x') = .ok ⟨1, .SetVolt, "T", "12."⟩ [] := by
  refine ⟨?_, ?_, ?_⟩
  · exact (textentry_char_filter [] ⟨1, .SetVolt, "T", "12."⟩ '5' (by decide)
      (by decide)).trans (by decide)
  · exact (textentry_char_filter [] ⟨1, .SetVolt, "T", "0123456789012345"⟩ '5' (by decide)
      (by decide)).trans (by decide)
  · exact (textentry_char_filter [] ⟨1, .SetVolt, "T", "12."⟩ 'x' (by decide)
      (by decide)).trans (by decide)

/-- C6: from any in-range channel cursor, channel-next and channel-prev wrap
around `[1, NUM_CH]`, keep the cursor in range, and issue `set_ch` with the
new channel (followed by the settle delay). -/
theorem channel_nav_wraparound :
    ∀ (snap : List Data) (st : Ui), st.inputTitle = "" → 1 ≤ st.ch → st.ch ≤ NUM_CH →
      (handleKey snap st .right =
        .ok { st with ch := if st.ch = NUM_CH then 1 else st.ch + 1 }
          [.setCh (if st.ch = NUM_CH then 1 else st.ch + 1), .sleepMs 50]) ∧
      (handleKey snap st .left =
        .ok { st with ch := if st.ch = 1 then NUM_CH else st.ch - 1 }
          [.setCh (if st.ch = 1 then NUM_CH else st.ch - 1), .sleepMs 50]) ∧
      handleKey snap st (.char 'l') = handleKey snap st .right ∧
      handleKey snap st (.char 'h') = handleKey snap st .left ∧
      1 ≤ (if st.ch = NUM_CH then 1 else st.ch + 1) ∧
      (if st.ch = NUM_CH then 1 else st.ch + 1) ≤ NUM_CH ∧
      1 ≤ (if st.ch = 1 then NUM_CH else st.ch - 1) ∧
      (if st.ch = 1 then NUM_CH else st.ch - 1) ≤ NUM_CH := by
  intro snap st ht h1 h2
  have e1 : (if st.ch + 1 > NUM_CH then 1 else st.ch + 1) =
      (if st.ch = NUM_CH then 1 else st.ch + 1) := by
    simp only [NUM_CH] at h2 ⊢
    split_ifs <;> omega
  have e2 : (if st.ch - 1 = 0 then NUM_CH else st.ch - 1) =
      (if st.ch = 1 then NUM_CH else st.ch - 1) := by
    simp only [NUM_CH] at h1 h2 ⊢
    split_ifs <;> omega
  refine ⟨?_, ?_, ?_, ?_, ?_, ?_, ?_, ?_⟩
  · simp [handleKey, ht, navKey, chanNextStep, e1]
  · simp [handleKey, ht, navKey, chanPrevStep, e2]
  · simp [handleKey, ht, navKey]
  · simp [handleKey, ht, navKey]
  · simp only [NUM_CH] at h2 ⊢; split_ifs <;> omega
  · simp only [NUM_CH] at h2 ⊢; split_ifs <;> omega
  · simp only [NUM_CH] at h1 h2 ⊢; split_ifs <;> omega
  · simp only [NUM_CH] at h1 h2 ⊢; split_ifs <;> omega

/-- C6 witness: wraparound at both ends on concrete states. -/
theorem channel_nav_wraparound_witness :
    handleKey [] ⟨3, .Measure, "", ""⟩ .right = .ok ⟨1, .Measure, "", ""⟩ [.setCh 1, .sleepMs 50] ∧
    handleKey [] ⟨1, .Measure, "", ""⟩ .left = .ok ⟨3, .Measure, "", ""⟩ [.setCh 3, .sleepMs 50] := by
  constructor
  · exact (channel_nav_wraparound [] ⟨3, .Measure, "", ""⟩ rfl (by decide) (by decide)).1.trans
      (by decide)
  · exact (channel_nav_wraparound [] ⟨1, .Measure, "", ""⟩ rfl (by decide)
      (by decide)).2.1.trans (by decide)

/-- C2: confirming text entry with a malformed buffer is not rejected — the
code panics.  The empty buffer is reachable (it is the buffer on entering
TextEntry) and a lone "." is reachable by one keypress; confirming either
runs `input.parse::<f32>().unwrap()` on a string that does not parse, a
panic rather than a rejection. -/
theorem textentry_confirm_malformed_panics :
    handleKey [] ⟨2, .SetVolt, "", ""⟩ .enter = .ok ⟨2, .SetVolt, "Voltage Setpoint (V)", ""⟩ [] ∧
    handleKey [] ⟨2, .SetVolt, "Voltage Setpoint (V)", ""⟩ .enter = .panicked ∧
    handleKey [] ⟨2, .SetVolt, "Voltage Setpoint (V)", ""⟩ (.char '.') =
      .ok ⟨2, .SetVolt, "Voltage Setpoint (V)", "."⟩ [] ∧
    handleKey [] ⟨2, .SetVolt, "Voltage Setpoint (V)", "."⟩ .enter = .panicked ∧
    parse_f32 "" = none ∧ parse_f32 "." = none := by
  decide

/-- C1: the retry loop has no `break` on success — with scripts on which
every attempt's sampling pass succeeds, `on_tick` is executed 3 times in the
one tick, not once; and if the device only serves the pass once, the
pointless re-execution turns a successful tick into a fatal error. -/
theorem sampler_reruns_after_success :
    (sampler okPass okPass okPass snap0).ticks = 3 ∧
    (sampler okPass okPass okPass snap0).res = .ok () ∧
    (sampler okPass [] [] snap0).ticks = 2 ∧
    (sampler okPass [] [] snap0).res = .error .inner :=
  ⟨rfl, rfl, rfl, rfl⟩

/-- The first component of a failed `on_tickAux` pass is never `ok`, and
from the failing channel onward the snapshot is untouched. -/
theorem on_tickAux_fail_drop :
    ∀ (snap : List Data) (cl : Client), (∀ x, (on_tickAux cl snap).1 ≠ .ok x) →
      ∃ k, k < snap.length ∧ (on_tickAux cl snap).2.drop k = snap.drop k := by
  intro snap
  induction snap with
  | nil => intro cl h; exact absurd rfl (h cl)
  | cons d rest ih =>
    intro cl h
    cases hs : sampleChannel cl with
    | ok p =>
      have h2 : ∀ x, (on_tickAux p.2 rest).1 ≠ .ok x := by
        intro x hx
        exact h x (by simp [on_tickAux, hs, hx])
      obtain ⟨k, hk, hd⟩ := ih p.2 h2
      refine ⟨k + 1, by simpa using Nat.succ_lt_succ hk, ?_⟩
      simpa [on_tickAux, hs] using hd
    | fail => exact ⟨0, by simp, by simp [on_tickAux, hs]⟩
    | hang => exact ⟨0, by simp, by simp [on_tickAux, hs]⟩

/-- Pass `on_tickAux` never changes the number of channels. -/
theorem on_tickAux_length :
    ∀ (snap : List Data) (cl : Client), (on_tickAux cl snap).2.length = snap.length := by
  intro snap
  induction snap with
  | nil => intro cl; rfl
  | cons d rest ih =>
    intro cl
    cases hs : sampleChannel cl with
    | ok p => simp [on_tickAux, hs, ih p.2]
    | fail => simp [on_tickAux, hs]
    | hang => simp [on_tickAux, hs]

/-- C4 (amended): a channel's slot is replaced only after all eight of its
queries succeed.  The snapshot keeps its length; if the pass fails (error or
timeout) there is a failing channel index `k` below which every slot was
fully resampled and from which every slot — the failing channel included —
keeps its previous value; and if the failure strikes the first channel the
whole snapshot is unchanged. -/
theorem on_tick_per_channel_atomic :
    ∀ (cl : Client) (snap : List Data),
      (on_tick cl snap).2.length = snap.length ∧
      ((on_tick cl snap).1 ≠ .ok () → ∃ k, k < snap.length ∧
        (on_tick cl snap).2.drop k = snap.drop k) ∧
      ((sampleChannel cl = .fail ∨ sampleChannel cl = .hang) → (on_tick cl snap).2 = snap) := by
  intro cl snap
  refine ⟨on_tickAux_length snap cl, ?_, ?_⟩
  · intro hne
    have h : ∀ x, (on_tickAux cl snap).1 ≠ .ok x := by
      intro x hx
      exact hne (by simp [on_tick, hx])
    simpa [on_tick] using on_tickAux_fail_drop snap cl h
  · intro hs
    cases snap with
    | nil => rfl
    | cons d rest =>
      rcases hs with h | h <;> simp [on_tick, on_tickAux, h]

/-- C4 witness: a pass whose very first query fails fast leaves the startup
snapshot untouched. -/
theorem on_tick_per_channel_atomic_witness :
    (on_tick [QOutcome.err] snap0).2 = snap0 :=
  (on_tick_per_channel_atomic [QOutcome.err] snap0).2.2 (Or.inl (by decide))

/-- C4 counterexample: with a device that serves all of channel 1 and then
goes silent, every attempt of the pass times out — the tick is a fatal
error — yet the snapshot is not equal to its pre-tick value: channel 1 has
been replaced with freshly sampled data. -/
theorem sampler_all_attempts_fail_snapshot_changed :
    (sampler hangPass hangPass hangPass snap0).res = .error .timeoutFatal ∧
    (sampler hangPass hangPass hangPass snap0).snap ≠ snap0 ∧
    (sampler hangPass hangPass hangPass snap0).snap.drop 1 = snap0.drop 1 :=
  ⟨rfl, by decide, rfl⟩

